import Mathlib

/-!
Shallow embedding of marimo's asset endpoints
(`src/marimo/_server/api/endpoints/assets.py`): the `virtual_file`
handler for token-addressed in-memory buffers and the
`serve_public_file` handler that serves files from a per-session
`public/` sandbox directory.

Paths are modelled as lists of components of an absolute path
(`["home", "nb", "public"]` stands for `/home/nb/public`).  The
filesystem is a static snapshot for the duration of one request: a
finite association of absolute paths to nodes.  External collaborators
(the session registry, the virtual-file store, the mimetype table) are
passed in as function parameters, matching the spec's collaborator
interfaces.
-/

/-- A node of the static filesystem snapshot: a regular file with its
byte contents, a directory, or a symbolic link with an absolute target
path. -/
inductive FSNode where
  | file (contents : List Nat)
  | dir
  | symlink (target : List String)
deriving DecidableEq

/-- A filesystem snapshot: a finite association of absolute paths
(component lists) to nodes. -/
abbrev FS := List (List String × FSNode)

/-- Node stored at path `p`, if any. -/
def FS.node (fs : FS) (p : List String) : Option FSNode :=
  List.lookup p fs

/-- `os.path.islink`: true iff the path itself is a symbolic link
(no following). -/
def isSymlink (fs : FS) (p : List String) : Bool :=
  match fs.node p with
  | some (FSNode.symlink _) => true
  | _ => false

/-- `Path.is_file` evaluated on an already fully canonicalized path:
true iff the node at the path is a regular file. -/
def isRegularFile (fs : FS) (p : List String) : Bool :=
  match fs.node p with
  | some (FSNode.file _) => true
  | _ => false

/-- Contents of the regular file at `p` (the callers guard with
`isRegularFile` first). -/
def readFile (fs : FS) (p : List String) : List Nat :=
  match fs.node p with
  | some (FSNode.file contents) => contents
  | _ => []

/-- `Path.resolve()` (POSIX `realpath`, non-strict): components are
processed left to right against the already-resolved absolute prefix;
`.` is dropped, `..` pops one component of the resolved prefix, a
component naming a symbolic link is replaced by its absolute target,
and a component that does not exist is kept verbatim.  The fuel bounds
symbolic-link following the way the operating system bounds it
(`ELOOP`); exhaustion models the failure of resolution on a link
cycle. -/
def resolveSteps (fs : FS) : Nat → List String → List String → Option (List String)
  | _, acc, [] => some acc
  | 0, _, _ :: _ => none
  | fuel + 1, acc, c :: rest =>
    if c = "." then resolveSteps fs fuel acc rest
    else if c = ".." then resolveSteps fs fuel acc.dropLast rest
    else
      match fs.node (acc ++ [c]) with
      | some (FSNode.symlink target) => resolveSteps fs fuel [] (target ++ rest)
      | _ => resolveSteps fs fuel (acc ++ [c]) rest

/-- Fuel budget for `resolveSteps`: generous enough that only genuine
link cycles exhaust it. -/
def resolveFuel (fs : FS) (p : List String) : Nat :=
  41 * (p.length + 1) +
    41 * fs.foldr
      (fun e a =>
        a + (match e.2 with
             | FSNode.symlink target => target.length + 1
             | _ => 1))
      1

/-- Full canonicalization of an absolute path against the snapshot. -/
def resolve (fs : FS) (p : List String) : Option (List String) :=
  resolveSteps fs (resolveFuel fs p) [] p

/-- Notebook directory for a session (`assets.py` lines 222-226): the
parent of the notebook file the registry reports for the session, or
the process's current working directory when the registry holds no
(truthy) notebook path.  The registry parameter models the external
`session_manager.app_manager(notebook_id).filename` collaborator. -/
def notebookDir (cwd : List String) (registry : String → Option (List String))
    (nid : String) : List String :=
  match registry nid with
  | some filename => filename.dropLast
  | none => cwd

/-- Sandbox root for a session (`assets.py` line 227):
`notebook_dir / "public"`. -/
def publicDir (cwd : List String) (registry : String → Option (List String))
    (nid : String) : List String :=
  notebookDir cwd registry nid ++ ["public"]

/-- Observable outcome of the public-file handler: a streamed file body
(`FileResponse`), a 403 (`Access denied`), a 404 (`File not found`), or
a propagated exception from path resolution. -/
inductive PResponse where
  | fileContents (contents : List Nat)
  | denied
  | notFound
  | resolveError
deriving DecidableEq

/-- Body of `serve_public_file` once the session's public directory is
fixed (`assets.py` lines 228-239): canonicalize the joined path, test
containment against the independently canonicalized public directory
(403 on escape), then serve the target iff it is a regular file and not
a symbolic link (404 otherwise). -/
def serveFrom (fs : FS) (public_dir filepath : List String) : PResponse :=
  match resolve fs (public_dir ++ filepath) with
  | none => PResponse.resolveError
  | some file_path =>
    match resolve fs public_dir with
    | none => PResponse.resolveError
    | some pd =>
      if pd.isPrefixOf file_path then
        if isRegularFile fs file_path && !isSymlink fs file_path then
          PResponse.fileContents (readFile fs file_path)
        else PResponse.notFound
      else PResponse.denied

/-- `serve_public_file` (`assets.py` lines 213-239): a request carries
an optional `X-Notebook-Id` header value and a relative path; an absent
or empty header falls through to the 404 (the Python truthiness test on
the header). -/
def serve_public_file (fs : FS) (cwd : List String)
    (registry : String → Option (List String))
    (notebook_id : Option String) (filepath : List String) : PResponse :=
  match notebook_id with
  | some nid =>
    if nid = "" then PResponse.notFound
    else serveFrom fs (publicDir cwd registry nid) filepath
  | none => PResponse.notFound

/-- Modelled from the spec: `EMPTY_VIRTUAL_FILE.filename` from
`marimo._runtime.virtual_file`, which is not part of this excerpt; the
spec fixes the reserved empty-file sentinel to the empty token. -/
def EMPTY_VIRTUAL_FILE_filename : String := ""

/-- Modelled from the spec: the external virtual-file store collaborator
`read_virtual_file(filename, byte_length)` from
`marimo._runtime.virtual_file`, not part of this excerpt.  The store
state maps a filename to the buffer it holds; the store validates that
the buffer held under the filename has exactly the requested number of
bytes and signals absence when no such buffer exists or the length does
not match. -/
def read_virtual_file (store : String → Option (List Nat))
    (filename : String) (byte_length : Nat) : Option (List Nat) :=
  match store filename with
  | some b => if b.length = byte_length then some b else none
  | none => none

/-- Python `s.split(sep, 1)` for a single-character separator, on the
character list: split at the first occurrence.  When the separator is
absent the whole input is the first component (the source guards on
membership before splitting). -/
def splitOnFirst (c : Char) : List Char → List Char × List Char
  | [] => ([], [])
  | x :: xs =>
    if x = c then ([], xs)
    else
      let p := splitOnFirst c xs
      (x :: p.1, p.2)

/-- Python `str.isdigit` restricted to ASCII decimal digits: true iff
the string is nonempty and every character is an ASCII decimal digit.
Python's `isdigit` additionally accepts other Unicode digit characters
(some of which `int()` then rejects), so this restriction is exact only
as a positive test: whenever it is true, Python's `isdigit` is true as
well and `int()` computes `parseDec`; whenever Python's `isdigit` is
false, it is false too.  The theorems about well-formed tokens
therefore take its truth as a hypothesis, which confines them to the
domain where the embedding and the program agree. -/
def pyIsDigit (s : String) : Bool :=
  !s.data.isEmpty && s.data.all Char.isDigit

/-- Python `int()` on a decimal-digit string, as a fold over the
characters. -/
def parseDec (l : List Char) : Nat :=
  l.foldl (fun n c => 10 * n + (c.toNat - 48)) 0

/-- Observable outcome of the virtual-file handler: a success carrying
the body bytes, the optional content type, and the optional
`Cache-Control` header value; or an `HTTPException` carrying status and
detail. -/
inductive VResponse where
  | ok (content : List Nat) (mediaType : Option String) (cacheControl : Option String)
  | httpError (status : Nat) (detail : String)
deriving DecidableEq

/-- HTTP status of a response (a plain `Response` is 200). -/
def statusOf : VResponse → Nat
  | VResponse.ok _ _ _ => 200
  | VResponse.httpError s _ => s

/-- Whether the response is a success. -/
def isSuccess : VResponse → Bool
  | VResponse.ok _ _ _ => true
  | VResponse.httpError _ _ => false

/-- The `Cache-Control` header value of a response, if any. -/
def cacheControlOf : VResponse → Option String
  | VResponse.ok _ _ c => c
  | VResponse.httpError _ _ => none

/-- `virtual_file` (`assets.py` lines 129-178).  The external buffer
store and the `mimetypes.guess_type` extension table are passed as
collaborators.  The sentinel token short-circuits to an empty
octet-stream success with no extra headers; a token without `-`, or
whose part before the first `-` fails the digit guard, is a 404;
otherwise the store is queried with `(filename, int(byte_length))` and
a hit is returned with a `Cache-Control: max-age=86400` header.  The
digit guard embeds `byte_length.isdigit()` by its ASCII restriction
`pyIsDigit`, so this embedding is exact on separator-free tokens and on
tokens whose length segment is all ASCII digits; it does not cover the
program's behaviour on length segments made of non-ASCII Unicode digit
characters, where the real guard passes and `int()` either parses the
segment or raises `ValueError`. -/
def virtual_file (store : String → Option (List Nat))
    (guessType : String → Option String)
    (filename_and_length : String) : VResponse :=
  if filename_and_length = EMPTY_VIRTUAL_FILE_filename then
    VResponse.ok [] (some "application/octet-stream") none
  else if !(filename_and_length.data.contains '-') then
    VResponse.httpError 404 "Invalid virtual file request"
  else
    let p := splitOnFirst '-' filename_and_length.data
    let byte_length : String := ⟨p.1⟩
    let filename : String := ⟨p.2⟩
    if !pyIsDigit byte_length then
      VResponse.httpError 404 "Invalid byte length in virtual file request"
    else
      match read_virtual_file store filename (parseDec byte_length.data) with
      | some buffer_contents =>
        VResponse.ok buffer_contents (guessType filename) (some "max-age=86400")
      | none => VResponse.httpError 404 "File not found"

/-- A store holding nothing. -/
def storeZ : String → Option (List Nat) := fun _ => none

/-- A store holding the single buffer `[9, 8, 7]` under `f.png`. -/
def storeF : String → Option (List Nat) :=
  fun nm => if nm = "f.png" then some [9, 8, 7] else none

/-- A mimetype table with no mappings. -/
def mimeZ : String → Option String := fun _ => none

/-- Example snapshot: a notebook at `/home/nb/nb.py` with a sandbox
`/home/nb/public` holding a regular file `real.txt` and a symbolic link
`link` whose target is that same regular file inside the sandbox;
`/etc/passwd` lives outside the sandbox. -/
def fsEx : FS :=
  [(["home"], FSNode.dir),
   (["home", "nb"], FSNode.dir),
   (["home", "nb", "public"], FSNode.dir),
   (["home", "nb", "public", "real.txt"], FSNode.file [1, 2, 3]),
   (["home", "nb", "public", "link"],
     FSNode.symlink ["home", "nb", "public", "real.txt"]),
   (["etc"], FSNode.dir),
   (["etc", "passwd"], FSNode.file [42])]

def regEx : String → Option (List String) :=
  fun s => if s = "nb1" then some ["home", "nb", "nb.py"] else none

/-- A registry holding no notebook path for any session. -/
def regZ : String → Option (List String) := fun _ => none

/-- C1.  The claim says a leaf symbolic link whose target is a regular
file inside the sandbox yields `NotFound` and never file contents.  The
code canonicalizes the joined path *before* the `islink` test, so the
test runs on the symlink's resolved target and never fires: on the
example snapshot, requesting `link` (a symlink to `real.txt` inside the
sandbox) returns the target's bytes with a 200, not a 404. -/
theorem serve_public_file_serves_leaf_symlink :
    serve_public_file fsEx ["tmp"] regEx (some "nb1") ["link"]
      = PResponse.fileContents [1, 2, 3] := by decide

/-- C2.  For every snapshot, working directory, registry, non-empty
session id, and relative path whose join with the public directory
canonicalizes to a path of which the independently canonicalized public
directory is not a prefix (neither equal nor an ancestor), the handler
answers 403 `denied` and never file contents. -/
theorem serve_public_file_denied_on_escape
    (fs : FS) (cwd : List String) (registry : String → Option (List String))
    (nid : String) (filepath fp pd : List String)
    (hnid : nid ≠ "")
    (hfp : resolve fs (publicDir cwd registry nid ++ filepath) = some fp)
    (hpd : resolve fs (publicDir cwd registry nid) = some pd)
    (hesc : pd.isPrefixOf fp = false) :
    serve_public_file fs cwd registry (some nid) filepath = PResponse.denied := by
  simp [serve_public_file, hnid, serveFrom, hfp, hpd, hesc]

/-- Witness for C2: a `../../..`-traversal out of the sandbox towards
`/etc/passwd` is denied on the example snapshot. -/
theorem serve_public_file_denied_on_escape_witness :
    serve_public_file fsEx ["tmp"] regEx (some "nb1") ["..", "..", "..", "etc", "passwd"]
      = PResponse.denied :=
  serve_public_file_denied_on_escape fsEx ["tmp"] regEx "nb1"
    ["..", "..", "..", "etc", "passwd"] ["etc", "passwd"] ["home", "nb", "public"]
    (by decide) (by decide) (by decide) (by decide)

/-- C3.  With the session header absent or the empty string the handler
answers 404 `notFound` for every snapshot, working directory, registry
and path — the result does not depend on the filesystem at all, and no
default directory is consulted. -/
theorem serve_public_file_no_session_notFound
    (fs : FS) (cwd : List String) (registry : String → Option (List String))
    (filepath : List String) :
    serve_public_file fs cwd registry none filepath = PResponse.notFound ∧
    serve_public_file fs cwd registry (some "") filepath = PResponse.notFound := by
  constructor <;> simp [serve_public_file]

/-- C8.  For every non-empty session id: when the registry holds no
notebook path the notebook directory falls back to the current working
directory, and in every case the handler serves from the sandbox root
`notebookDir / "public"`. -/
theorem serve_public_file_cwd_fallback_public_root
    (fs : FS) (cwd : List String) (registry : String → Option (List String))
    (nid : String) (filepath : List String) (hnid : nid ≠ "") :
    (registry nid = none → notebookDir cwd registry nid = cwd) ∧
    serve_public_file fs cwd registry (some nid) filepath
      = serveFrom fs (notebookDir cwd registry nid ++ ["public"]) filepath := by
  constructor
  · intro h
    simp [notebookDir, h]
  · simp [serve_public_file, hnid, publicDir]

/-- Witness for C8 at a registry with no entries and session `nb9`. -/
theorem serve_public_file_cwd_fallback_public_root_witness :
    notebookDir ["tmp"] regZ "nb9" = ["tmp"] ∧
    serve_public_file fsEx ["tmp"] regZ (some "nb9") ["x"]
      = serveFrom fsEx (notebookDir ["tmp"] regZ "nb9" ++ ["public"]) ["x"] :=
  And.intro
    ((serve_public_file_cwd_fallback_public_root fsEx ["tmp"] regZ "nb9" ["x"]
        (by decide)).1 rfl)
    ((serve_public_file_cwd_fallback_public_root fsEx ["tmp"] regZ "nb9" ["x"]
        (by decide)).2)

/-- C10.  The containment check runs before the existence check: when
the resolved target is not a regular file, an escaping path is still
answered 403 `denied`, while a contained path is answered 404
`notFound`. -/
theorem serve_public_file_containment_precedes_existence
    (fs : FS) (cwd : List String) (registry : String → Option (List String))
    (nid : String) (filepath fp pd : List String)
    (hnid : nid ≠ "")
    (hfp : resolve fs (publicDir cwd registry nid ++ filepath) = some fp)
    (hpd : resolve fs (publicDir cwd registry nid) = some pd)
    (hnofile : isRegularFile fs fp = false) :
    (pd.isPrefixOf fp = false →
      serve_public_file fs cwd registry (some nid) filepath = PResponse.denied) ∧
    (pd.isPrefixOf fp = true →
      serve_public_file fs cwd registry (some nid) filepath = PResponse.notFound) := by
  constructor <;> intro h <;>
    simp [serve_public_file, hnid, serveFrom, hfp, hpd, h, hnofile]

/-- Witness for C10: a contained path whose target does not exist is
answered 404 on the example snapshot. -/
theorem serve_public_file_containment_precedes_existence_witness :
    serve_public_file fsEx ["tmp"] regEx (some "nb1") ["missing.txt"]
      = PResponse.notFound :=
  (serve_public_file_containment_precedes_existence fsEx ["tmp"] regEx "nb1"
      ["missing.txt"] ["home", "nb", "public", "missing.txt"] ["home", "nb", "public"]
      (by decide) (by decide) (by decide) (by decide)).2 (by decide)

/-- Character data of a token assembled as `s ++ "-" ++ name`. -/
theorem token_data (s name : String) :
    (s ++ "-" ++ name).data = s.data ++ '-' :: name.data := by
  simp [String.data_append]

/-- A token assembled around a separator is never the empty sentinel. -/
theorem token_ne_sentinel (s name : String) :
    s ++ "-" ++ name ≠ EMPTY_VIRTUAL_FILE_filename := by
  intro h
  have hd := congrArg String.data h
  rw [token_data] at hd
  simp [EMPTY_VIRTUAL_FILE_filename] at hd

/-- A list holding the separator in the middle contains it. -/
theorem contains_append_cons (c : Char) (l r : List Char) :
    (l ++ c :: r).contains c = true := by
  simp [List.contains, List.elem_eq_mem]

/-- Splitting at the first separator occurrence, when the prefix is
free of the separator, recovers the two sides. -/
theorem splitOnFirst_append (c : Char) (r : List Char) (l : List Char)
    (h : ∀ x ∈ l, x ≠ c) :
    splitOnFirst c (l ++ c :: r) = (l, r) := by
  induction l with
  | nil => simp [splitOnFirst]
  | cons x xs ih =>
    have hx : x ≠ c := h x (List.mem_cons_self x xs)
    have hrec : splitOnFirst c (xs ++ c :: r) = (xs, r) :=
      ih fun y hy => h y (List.mem_cons_of_mem x hy)
    simp [splitOnFirst, hx, hrec]

/-- Every character of a digit string differs from the separator. -/
theorem digits_ne_dash (s : String) (hdig : pyIsDigit s = true) :
    ∀ x ∈ s.data, x ≠ '-' := by
  intro x hx hEq
  simp [pyIsDigit, Bool.and_eq_true] at hdig
  have : x.isDigit = true := hdig.2 x hx
  rw [hEq] at this
  simp [Char.isDigit] at this

/-- Evaluation of `virtual_file` on a well-formed token whose length
part passes `isdigit`: the handler reaches the store query with the
split filename and the parsed length. -/
theorem virtual_file_wellformed_eval
    (store : String → Option (List Nat)) (guessType : String → Option String)
    (s name : String) (hdig : pyIsDigit s = true) :
    virtual_file store guessType (s ++ "-" ++ name)
      = match read_virtual_file store name (parseDec s.data) with
        | some buffer_contents =>
          VResponse.ok buffer_contents (guessType name) (some "max-age=86400")
        | none => VResponse.httpError 404 "File not found" := by
  have hne := token_ne_sentinel s name
  have hcontains : (s ++ "-" ++ name).data.contains '-' = true := by
    rw [token_data]
    exact contains_append_cons '-' s.data name.data
  have hsplit : splitOnFirst '-' (s.data ++ '-' :: name.data) = (s.data, name.data) :=
    splitOnFirst_append '-' name.data s.data (digits_ne_dash s hdig)
  simp [virtual_file, hne, hcontains, hsplit, hdig]

/-- C4.  For every store state and mimetype table the sentinel token is
answered by a zero-length success with the fixed content type
`application/octet-stream` (and no extra header); universality over the
store expresses that the store is never queried. -/
theorem virtual_file_empty_sentinel
    (store : String → Option (List Nat)) (guessType : String → Option String) :
    virtual_file store guessType EMPTY_VIRTUAL_FILE_filename
      = VResponse.ok [] (some "application/octet-stream") none := by
  simp [virtual_file]

/-- C6.  A well-formed token whose store query misses (no buffer under
the filename with exactly the requested byte count) is answered with a
404, the same status class a malformed token receives. -/
theorem virtual_file_store_miss_404
    (store : String → Option (List Nat)) (guessType : String → Option String)
    (s name : String)
    (hdig : pyIsDigit s = true)
    (hmiss : read_virtual_file store name (parseDec s.data) = none) :
    statusOf (virtual_file store guessType (s ++ "-" ++ name)) = 404 ∧
    statusOf (virtual_file store guessType (s ++ "-" ++ name))
      = statusOf (virtual_file store guessType "nodash") := by
  have heval := virtual_file_wellformed_eval store guessType s name hdig
  rw [hmiss] at heval
  have h1 : ("nodash" : String) ≠ EMPTY_VIRTUAL_FILE_filename := by decide
  have h2 : '-' ∉ ("nodash" : String).data := by decide
  constructor
  · rw [heval]
    simp [statusOf]
  · rw [heval]
    simp [virtual_file, h1, h2, statusOf]

/-- Witness for C6: the empty store misses the token `2-x`. -/
theorem virtual_file_store_miss_404_witness :
    statusOf (virtual_file storeZ mimeZ ("2" ++ "-" ++ "x")) = 404 ∧
    statusOf (virtual_file storeZ mimeZ ("2" ++ "-" ++ "x"))
      = statusOf (virtual_file storeZ mimeZ "nodash") :=
  virtual_file_store_miss_404 storeZ mimeZ "2" "x" (by decide) (by decide)

/-- C7.  Round-trip: when the store holds exactly the buffer `b` under
`name` and the digit string `s` spells `b`'s byte count, the token
assembled as `s ++ "-" ++ name` is answered by exactly the bytes `b`,
unmodified, with the mimetype guessed from `name`. -/
theorem virtual_file_roundtrip
    (store : String → Option (List Nat)) (guessType : String → Option String)
    (s name : String) (b : List Nat)
    (hdig : pyIsDigit s = true)
    (hlen : parseDec s.data = b.length)
    (hstore : store name = some b) :
    virtual_file store guessType (s ++ "-" ++ name)
      = VResponse.ok b (guessType name) (some "max-age=86400") := by
  have heval := virtual_file_wellformed_eval store guessType s name hdig
  rw [hlen] at heval
  rw [heval]
  simp [read_virtual_file, hstore]

/-- Witness for C7: the store holding `[9, 8, 7]` under `f.png` answers
the token `3-f.png` with those bytes. -/
theorem virtual_file_roundtrip_witness :
    virtual_file storeF mimeZ ("3" ++ "-" ++ "f.png")
      = VResponse.ok [9, 8, 7] (mimeZ "f.png") (some "max-age=86400") :=
  virtual_file_roundtrip storeF mimeZ "3" "f.png" [9, 8, 7]
    (by decide) (by decide) (by decide)

/-- Counterexample to C9: the sentinel success (token equal to the
reserved empty sentinel) is a successful response that does not carry
the `Cache-Control: max-age=86400` header. -/
theorem virtual_file_sentinel_lacks_cache_header :
    isSuccess (virtual_file storeZ mimeZ EMPTY_VIRTUAL_FILE_filename) = true ∧
    cacheControlOf (virtual_file storeZ mimeZ EMPTY_VIRTUAL_FILE_filename)
      ≠ some "max-age=86400" := by
  decide

/-- C9 amended.  Every successful response to a non-sentinel token
carries the `Cache-Control: max-age=86400` header; the sentinel success
carries no such header. -/
theorem virtual_file_cache_header_nonsentinel
    (store : String → Option (List Nat)) (guessType : String → Option String)
    (token : String)
    (hne : token ≠ EMPTY_VIRTUAL_FILE_filename)
    (hok : isSuccess (virtual_file store guessType token) = true) :
    cacheControlOf (virtual_file store guessType token) = some "max-age=86400" := by
  by_cases hc : '-' ∈ token.data
  · by_cases hd : pyIsDigit ⟨(splitOnFirst '-' token.data).1⟩ = true
    · cases hm : read_virtual_file store ⟨(splitOnFirst '-' token.data).2⟩
          (parseDec (splitOnFirst '-' token.data).1) with
      | some b => simp [virtual_file, hne, hc, hd, hm, cacheControlOf]
      | none => simp [virtual_file, hne, hc, hd, hm, isSuccess] at hok
    · simp at hd
      simp [virtual_file, hne, hc, hd, isSuccess] at hok
  · simp [virtual_file, hne, hc, isSuccess] at hok

/-- Witness for the amended C9 at the token `3-f.png` and the store
holding `[9, 8, 7]` under `f.png`. -/
theorem virtual_file_cache_header_nonsentinel_witness :
    cacheControlOf (virtual_file storeF mimeZ "3-f.png") = some "max-age=86400" :=
  virtual_file_cache_header_nonsentinel storeF mimeZ "3-f.png" (by decide) (by decide)
